import Mathlib

/-!
Verification development for the aisearchapi-js TypeScript client.

The embedding below models the runtime behaviour of the single client class
(file client.ts) and its data shapes (file types.ts).  JavaScript values that
cross the API surface are modelled by the inductive type `Json`; JavaScript
truthiness and property access are modelled explicitly, since the client
relies on them in its validation and error-normalization logic.  The single
HTTP call a request performs is modelled by a `TransportOutcome` parameter,
and each operation additionally reports how many times the transport ran.
-/

namespace AISearchAPI

/-- JSON/JavaScript values delivered to and produced by the client.  Numbers
are modelled as integers; no claim depends on fractional values. -/
inductive Json where
  | null : Json
  | bool : Bool → Json
  | num : Int → Json
  | str : String → Json
  | arr : List Json → Json
  | obj : List (String × Json) → Json

/-- JavaScript truthiness of a value: null, false, 0 and the empty string
are falsy; arrays and objects are always truthy. -/
def jtruthy : Json → Bool
  | Json.null => false
  | Json.bool b => b
  | Json.num n => n != 0
  | Json.str s => s != ""
  | Json.arr _ => true
  | Json.obj _ => true

/-- JavaScript property access: `none` models `undefined`.  Only object
values carry the properties the client reads. -/
def jget : Json → String → Option Json
  | Json.obj fs, k => (fs.find? (fun p => p.1 == k)).map (fun p => p.2)
  | _, _ => none

/-- Truthiness of a possibly-undefined value; `undefined` is falsy. -/
def otruthy : Option Json → Bool
  | none => false
  | some j => jtruthy j

/-- Does the value satisfy the `typeof v` equals string test? -/
def isStrOpt : Option Json → Bool
  | some (Json.str _) => true
  | _ => false

/-- Is the value a non-empty string? -/
def isNonEmptyStringOpt : Option Json → Bool
  | some (Json.str s) => s != ""
  | _ => false

/-- Is the value exactly the string "user"? -/
def isUserRole : Option Json → Bool
  | some (Json.str s) => s == "user"
  | _ => false

/-- Is the value one of the strings "text" or "markdown"?  This models the
includes check on the response_type field in validateSearchRequest. -/
def isTextOrMarkdown : Option Json → Bool
  | some (Json.str s) => s == "text" || s == "markdown"
  | _ => false

/-- Embedding of the AISearchAPIError class of types.ts: `message` records
the value passed as the description argument (the string coercion performed
by the Error base constructor is not modelled), `statusCode` and `response`
are the optional constructor arguments. -/
structure AISearchAPIError where
  message : Json
  statusCode : Option Nat
  response : Option Json

/-- Embedding of ClientConfig from types.ts; `none` models an omitted field. -/
structure ClientConfig where
  apiKey : Option String
  baseUrl : Option String
  timeout : Option Nat

/-- State of a successfully constructed AISearchAPIClient: the three fields
the constructor stores. -/
structure Client where
  apiKey : String
  baseUrl : String
  timeout : Nat

/-- Truthiness of an optional string: missing and empty are falsy. -/
def strTruthy : Option String → Bool
  | none => false
  | some s => s != ""

/-- Embedding of the AISearchAPIClient constructor: a falsy apiKey is
rejected with a plain Error (the InvalidArgument kind, distinct from
AISearchAPIError), and the or-defaults are applied to baseUrl and timeout. -/
def mkClient (config : ClientConfig) : Except String Client :=
  if !(strTruthy config.apiKey) then
    Except.error "API key is required"
  else
    Except.ok
      { apiKey := config.apiKey.getD ""
        baseUrl :=
          if strTruthy config.baseUrl then config.baseUrl.getD ""
          else "https://api.aisearchapi.io"
        timeout :=
          match config.timeout with
          | some t => if t != 0 then t else 30000
          | none => 30000 }

/-- Runtime view of a SearchRequest as received by `search`: each field may
be absent (undefined) or hold any JavaScript value. -/
structure DynSearchRequest where
  prompt : Option Json
  context : Option Json
  response_type : Option Json

/-- Embedding of the per-element checks of the loop in
validateSearchRequest, fail-fast over the context list. -/
def validateContextList : List Json → Option String
  | [] => none
  | m :: rest =>
    if !(otruthy (jget m "role")) || !(isUserRole (jget m "role")) then
      some "Each context message must have role \"user\""
    else if !(otruthy (jget m "content")) || !(isStrOpt (jget m "content")) then
      some "Each context message must have content as a string"
    else
      validateContextList rest

/-- Embedding of the context block of validateSearchRequest: the block runs
only when the context value is truthy. -/
def validateContext (c : Option Json) : Option String :=
  if otruthy c then
    match c with
    | some (Json.arr ms) => validateContextList ms
    | _ => some "Context must be an array of chat messages"
  else none

/-- Embedding of the response_type check of validateSearchRequest. -/
def validateRespType (rt : Option Json) : Option String :=
  if otruthy rt && !(isTextOrMarkdown rt) then
    some "response_type must be either \"text\" or \"markdown\""
  else none

/-- Embedding of AISearchAPIClient.validateSearchRequest: the message of the
first violation found, or `none` when the request passes. -/
def validateSearchRequest (r : DynSearchRequest) : Option String :=
  if !(otruthy r.prompt) || !(isStrOpt r.prompt) then
    some "Prompt is required and must be a string"
  else
    match validateContext r.context with
    | some e => some e
    | none => validateRespType r.response_type

/-- Embedding of the body object literal of `search`: object spread includes
a key exactly when the spread operand is truthy. -/
def buildSearchBody (r : DynSearchRequest) : Json :=
  Json.obj
    ((match r.prompt with
      | some p => [("prompt", p)]
      | none => []) ++
     (if otruthy r.context then [("context", r.context.getD Json.null)] else []) ++
     (if otruthy r.response_type then
        [("response_type", r.response_type.getD Json.null)]
      else []))

/-- Does the serialized object contain the key `k`? -/
def Json.hasKey (j : Json) (k : String) : Bool :=
  match j with
  | Json.obj fs => fs.any (fun p => p.1 == k)
  | _ => false

/-- Outcome of the single fetch call a request performs: a response whose
body either parses as JSON (`Except.ok`) or does not (`Except.error` with
the parse error message), an abort fired by the timeout timer, or another
transport failure carrying the message of the underlying error. -/
inductive TransportOutcome where
  | response : Nat → Except String Json → TransportOutcome
  | timeoutAbort : TransportOutcome
  | failure : String → TransportOutcome

/-- Errors escaping makeRequest: the timeout AISearchAPIError, or a rethrown
plain transport error. -/
inductive ReqError where
  | api : AISearchAPIError → ReqError
  | plain : String → ReqError

/-- Embedding of AISearchAPIClient.makeRequest.  The boolean component
records whether clearTimeout ran on the exit path that was taken. -/
def makeRequest (timeout : Nat) (o : TransportOutcome) :
    Except ReqError (Nat × Except String Json) × Bool :=
  match o with
  | TransportOutcome.response status body => (Except.ok (status, body), true)
  | TransportOutcome.timeoutAbort =>
      (Except.error (ReqError.api
        { message := Json.str ("Request timeout after " ++ toString timeout ++ "ms")
          statusCode := none
          response := none }), true)
  | TransportOutcome.failure m => (Except.error (ReqError.plain m), true)

/-- Fixed user-facing overrides of the status switch in handleErrorResponse. -/
def overrideFor (status : Nat) : Option String :=
  if status = 401 then some "Unauthorized: Please check your API key"
  else if status = 429 then some "Too many requests: Please slow down your request rate"
  else if status = 433 then some "Account is at or over message quota: Please check your usage limits"
  else if status = 500 then some "Server error: Please try again later"
  else if status = 503 then some "Service unavailable: The API is temporarily down"
  else none

/-- Embedding of the body-driven message derivation in handleErrorResponse;
`errorData` is `none` when the body did not parse as JSON.  The conditions
mirror the truthiness and typeof tests of the code, and the misspelled wire
field name descripiton is matched verbatim. -/
def deriveMessage (status : Nat) (errorData : Option Json) : Json :=
  match errorData with
  | none => Json.str ("HTTP " ++ toString status)
  | some d =>
    let e := jget d "error"
    let desc := e.bind (fun x => jget x "descripiton")
    if otruthy e && otruthy desc then desc.getD Json.null
    else if otruthy e && isStrOpt e then e.getD Json.null
    else if otruthy (jget d "message") then (jget d "message").getD Json.null
    else Json.str ("HTTP " ++ toString status)

/-- Embedding of AISearchAPIClient.handleErrorResponse: the AISearchAPIError
value it always throws. -/
def handleErrorResponse (status : Nat) (errorData : Option Json) : AISearchAPIError :=
  { message :=
      match overrideFor status with
      | some m => Json.str m
      | none => deriveMessage status errorData
    statusCode := some status
    response := errorData }

/-- Errors that `search` and `balance` surface to the caller: a plain Error
thrown by validation (the InvalidArgument kind) or an AISearchAPIError (the
NormalizedError kind). -/
inductive ClientError where
  | invalidArgument : String → ClientError
  | apiError : AISearchAPIError → ClientError

/-- Whether response.ok holds for a status, following fetch: 2xx. -/
def respOk (status : Nat) : Bool :=
  decide (200 ≤ status) && decide (status < 300)

/-- Embedding of AISearchAPIClient.search for one transport outcome.  The
second component counts how many times the transport (fetch) was invoked. -/
def Client.searchRun (c : Client) (r : DynSearchRequest) (o : TransportOutcome) :
    Except ClientError Json × Nat :=
  match validateSearchRequest r with
  | some m => (Except.error (ClientError.invalidArgument m), 0)
  | none =>
    match makeRequest c.timeout o with
    | (Except.error (ReqError.api e), _) =>
        (Except.error (ClientError.apiError e), 1)
    | (Except.error (ReqError.plain m), _) =>
        (Except.error (ClientError.apiError
          { message := Json.str ("Search request failed: " ++ m)
            statusCode := none
            response := none }), 1)
    | (Except.ok (status, body), _) =>
        if respOk status then
          match body with
          | Except.ok j => (Except.ok j, 1)
          | Except.error m =>
              (Except.error (ClientError.apiError
                { message := Json.str ("Search request failed: " ++ m)
                  statusCode := none
                  response := none }), 1)
        else
          (Except.error (ClientError.apiError
            (handleErrorResponse status body.toOption)), 1)

/-- Embedding of AISearchAPIClient.balance for one transport outcome, with
the same transport invocation count. -/
def Client.balanceRun (c : Client) (o : TransportOutcome) :
    Except ClientError Json × Nat :=
  match makeRequest c.timeout o with
  | (Except.error (ReqError.api e), _) =>
      (Except.error (ClientError.apiError e), 1)
  | (Except.error (ReqError.plain m), _) =>
      (Except.error (ClientError.apiError
        { message := Json.str ("Balance request failed: " ++ m)
          statusCode := none
          response := none }), 1)
  | (Except.ok (status, body), _) =>
      if respOk status then
        match body with
        | Except.ok j => (Except.ok j, 1)
        | Except.error m =>
            (Except.error (ClientError.apiError
              { message := Json.str ("Balance request failed: " ++ m)
                statusCode := none
                response := none }), 1)
      else
        (Except.error (ClientError.apiError
          (handleErrorResponse status body.toOption)), 1)

/-- Embedding of ChatMessage from types.ts; its role field admits only the
literal "user", so only the content is recorded. -/
structure ChatMessage where
  content : String

/-- Embedding of ResponseType from types.ts. -/
inductive ResponseType where
  | text : ResponseType
  | markdown : ResponseType

/-- Runtime value of a typed ChatMessage. -/
def ChatMessage.toJson (m : ChatMessage) : Json :=
  Json.obj [("role", Json.str "user"), ("content", Json.str m.content)]

/-- Runtime value of a ResponseType. -/
def ResponseType.toJson : ResponseType → Json
  | ResponseType.text => Json.str "text"
  | ResponseType.markdown => Json.str "markdown"

/-- Embedding of a type-correct SearchRequest from types.ts. -/
structure SearchRequest where
  prompt : String
  context : Option (List ChatMessage)
  response_type : Option ResponseType

/-- View of a typed SearchRequest as the runtime value `search` receives. -/
def SearchRequest.toDyn (r : SearchRequest) : DynSearchRequest :=
  { prompt := some (Json.str r.prompt)
    context := r.context.map (fun ms => Json.arr (ms.map ChatMessage.toJson))
    response_type := r.response_type.map ResponseType.toJson }

/-- Message derivation as stated by the amended claim C1, written from the
amended wording: use the descripiton field of the error object when that
field is truthy, else the error field when it is a non-empty string, else
the message field when truthy, else the HTTP-status fallback. -/
def amendedDerived (status : Nat) (body : Json) : Json :=
  let desc := (jget body "error").bind (fun e => jget e "descripiton")
  if otruthy desc then desc.getD Json.null
  else if isNonEmptyStringOpt (jget body "error") then (jget body "error").getD Json.null
  else if otruthy (jget body "message") then (jget body "message").getD Json.null
  else Json.str ("HTTP " ++ toString status)

/-- Full amended-claim message: the fixed overrides for the five mapped
status codes, and the amended body-derived message for all other statuses. -/
def amendedSpecMessage (status : Nat) (body : Json) : Json :=
  match overrideFor status with
  | some m => Json.str m
  | none => amendedDerived status body

/-- Validity of one context element as stated by the amended claim C2: role
is exactly the string "user" and content is a non-empty string. -/
def validMessageB (m : Json) : Bool :=
  isUserRole (jget m "role") && isNonEmptyStringOpt (jget m "content")

/-- Is the supplied context value an array all of whose elements are valid
per the amended claim C2? -/
def contextOkB : Option Json → Bool
  | some (Json.arr ms) => ms.all validMessageB
  | _ => false

/-- Violation predicate of the amended claim C2: the prompt is not a
non-empty string; or the context value is truthy and is not an array of
valid elements; or the response_type value is truthy and is neither "text"
nor "markdown".  Falsy supplied values for context and response_type are
treated as absent, as the code does. -/
def violatesAmended (r : DynSearchRequest) : Bool :=
  !(isNonEmptyStringOpt r.prompt) ||
  (otruthy r.context && !(contextOkB r.context)) ||
  (otruthy r.response_type && !(isTextOrMarkdown r.response_type))

/-! Helper lemmas about the validation checks. -/

theorem truthyStr_check_eq (p : Option Json) :
    (!(otruthy p) || !(isStrOpt p)) = !(isNonEmptyStringOpt p) := by
  cases p with
  | none => rfl
  | some j => cases j <;> simp [otruthy, jtruthy, isStrOpt, isNonEmptyStringOpt]

theorem roleCheck_eq (x : Option Json) :
    (!(otruthy x) || !(isUserRole x)) = !(isUserRole x) := by
  cases x with
  | none => rfl
  | some j =>
    cases j with
    | str s =>
      by_cases h : s = "user"
      · subst h; decide
      · simp [otruthy, jtruthy, isUserRole, h]
    | null => rfl
    | bool b => simp [otruthy, jtruthy, isUserRole]
    | num n => simp [otruthy, jtruthy, isUserRole]
    | arr xs => simp [otruthy, jtruthy, isUserRole]
    | obj fs => simp [otruthy, jtruthy, isUserRole]

theorem validateContextList_none_all (ms : List Json)
    (h : validateContextList ms = none) : ms.all validMessageB = true := by
  induction ms with
  | nil => rfl
  | cons m rest ih =>
    unfold validateContextList at h
    by_cases h1 : (!(otruthy (jget m "role")) || !(isUserRole (jget m "role"))) = true
    · rw [if_pos h1] at h; simp at h
    · rw [if_neg h1] at h
      by_cases h2 : (!(otruthy (jget m "content")) || !(isStrOpt (jget m "content"))) = true
      · rw [if_pos h2] at h; simp at h
      · rw [if_neg h2] at h
        have hrole : isUserRole (jget m "role") = true := by
          rw [roleCheck_eq] at h1
          simpa using h1
        have hcontent : isNonEmptyStringOpt (jget m "content") = true := by
          rw [truthyStr_check_eq] at h2
          simpa using h2
        simp [List.all_cons, validMessageB, hrole, hcontent, ih h]

theorem validateContext_none (c : Option Json) (h : validateContext c = none) :
    (otruthy c && !(contextOkB c)) = false := by
  by_cases ht : otruthy c = true
  · cases c with
    | none => simp [otruthy] at ht
    | some j =>
      cases j with
      | arr ms =>
        unfold validateContext at h
        rw [if_pos ht] at h
        have := validateContextList_none_all ms h
        simp [ht, contextOkB, this]
      | null => simp [otruthy, jtruthy] at ht
      | bool b =>
        unfold validateContext at h
        rw [if_pos ht] at h
        simp at h
      | num n =>
        unfold validateContext at h
        rw [if_pos ht] at h
        simp at h
      | str s =>
        unfold validateContext at h
        rw [if_pos ht] at h
        simp at h
      | obj fs =>
        unfold validateContext at h
        rw [if_pos ht] at h
        simp at h
  · have ht2 : otruthy c = false := by simpa using ht
    simp [ht2]

theorem validateRespType_none (rt : Option Json) (h : validateRespType rt = none) :
    (otruthy rt && !(isTextOrMarkdown rt)) = false := by
  by_cases hc : (otruthy rt && !(isTextOrMarkdown rt)) = true
  · unfold validateRespType at h
    rw [if_pos hc] at h
    simp at h
  · simpa using hc

theorem validate_none_not_violates (r : DynSearchRequest)
    (h : validateSearchRequest r = none) : violatesAmended r = false := by
  unfold validateSearchRequest at h
  by_cases h1 : (!(otruthy r.prompt) || !(isStrOpt r.prompt)) = true
  · rw [if_pos h1] at h; simp at h
  · rw [if_neg h1] at h
    have hp : isNonEmptyStringOpt r.prompt = true := by
      rw [truthyStr_check_eq] at h1
      simpa using h1
    cases hcv : validateContext r.context with
    | some e => rw [hcv] at h; simp at h
    | none =>
      rw [hcv] at h
      simp only [] at h
      have hc := validateContext_none r.context hcv
      have hrt := validateRespType_none r.response_type h
      unfold violatesAmended
      rw [hp, hc, hrt]
      decide

theorem deriveMessage_eq_amended (status : Nat) (body : Json) :
    deriveMessage status (some body) = amendedDerived status body := by
  simp only [deriveMessage, amendedDerived]
  cases he : jget body "error" with
  | none => simp [otruthy, isNonEmptyStringOpt]
  | some e =>
    cases e with
    | obj fs => simp [otruthy, jtruthy, isStrOpt, isNonEmptyStringOpt]
    | str s => simp [otruthy, jtruthy, jget, isStrOpt, isNonEmptyStringOpt]
    | null => simp [otruthy, jtruthy, jget, isStrOpt, isNonEmptyStringOpt]
    | bool b => simp [otruthy, jtruthy, jget, isStrOpt, isNonEmptyStringOpt]
    | num n => simp [otruthy, jtruthy, jget, isStrOpt, isNonEmptyStringOpt]
    | arr xs => simp [otruthy, jtruthy, jget, isStrOpt, isNonEmptyStringOpt]

/-! Claim theorems. -/

/-- C1 (amended): for every non-2xx response whose body parses as JSON, the
normalized message follows the code precedence under JavaScript truthiness:
the error objects descripiton field when truthy, else the error field when a
non-empty string, else the message field when truthy, else the HTTP-status
fallback; a fixed override replaces the result for 401, 429, 433, 500 and
503, and the body-derived message stands for all other statuses. -/
theorem handleErrorResponse_message_amended (status : Nat) (body : Json) :
    (handleErrorResponse status (some body)).message = amendedSpecMessage status body := by
  cases h : overrideFor status with
  | some m => simp [handleErrorResponse, amendedSpecMessage, h]
  | none => simp [handleErrorResponse, amendedSpecMessage, h, deriveMessage_eq_amended]

/-- C1 counterexample: the claim as stated uses string-shape tests, but the
code uses truthiness.  For status 418 and the JSON body whose error field is
the empty string, the claim requires the empty string as the message, while
the code yields the fallback "HTTP 418". -/
theorem handleErrorResponse_empty_error_string_cex :
    (handleErrorResponse 418 (some (Json.obj [("error", Json.str "")]))).message
      = Json.str "HTTP 418" ∧
    (handleErrorResponse 418 (some (Json.obj [("error", Json.str "")]))).message
      ≠ Json.str "" := by
  refine ⟨rfl, fun h => ?_⟩
  injection (show Json.str "HTTP 418" = Json.str "" from h) with h2
  exact absurd h2 (by decide)

/-- C2 (amended): for every request that violates a validation constraint
under JavaScript truthiness (prompt not a non-empty string; context truthy
but not an array of elements with role "user" and non-empty string content;
response_type truthy but neither "text" nor "markdown"), search fails with
the plain-Error InvalidArgument kind, distinct from the AISearchAPIError
kind, and the transport is invoked zero times. -/
theorem searchRun_rejects_before_network (c : Client) (r : DynSearchRequest)
    (o : TransportOutcome) (h : violatesAmended r = true) :
    ∃ m, c.searchRun r o = (Except.error (ClientError.invalidArgument m), 0) := by
  cases hval : validateSearchRequest r with
  | none =>
    rw [validate_none_not_violates r hval] at h
    simp at h
  | some m =>
    exact ⟨m, by simp [Client.searchRun, hval]⟩

/-- C2 witness: a request with no prompt violates the amended constraint and
is rejected with the InvalidArgument kind before the transport runs. -/
theorem searchRun_rejects_before_network_witness :
    ∃ m, Client.searchRun
      { apiKey := "k", baseUrl := "https://api.aisearchapi.io", timeout := 30000 }
      { prompt := none, context := none, response_type := none }
      TransportOutcome.timeoutAbort
      = (Except.error (ClientError.invalidArgument m), 0) :=
  searchRun_rejects_before_network _ _ _ rfl

/-- C2 counterexample: a request whose context is the empty string has a
context that is present but not a sequence, yet the code treats the falsy
value as absent: validation passes and the transport runs once, refuting the
claim as stated. -/
theorem searchRun_falsy_context_not_rejected :
    validateSearchRequest
      { prompt := some (Json.str "hi"), context := some (Json.str ""), response_type := none }
      = none ∧
    (Client.searchRun
      { apiKey := "k", baseUrl := "https://api.aisearchapi.io", timeout := 30000 }
      { prompt := some (Json.str "hi"), context := some (Json.str ""), response_type := none }
      (TransportOutcome.response 200 (Except.ok (Json.obj [])))).2 = 1 :=
  ⟨rfl, rfl⟩

/-- C3: construction fails with the plain-Error InvalidArgument kind when
the apiKey is missing or empty, and otherwise succeeds, defaulting baseUrl
and timeout when they are omitted. -/
theorem mkClient_key_required_and_defaults (cfg : ClientConfig) :
    ((cfg.apiKey = none ∨ cfg.apiKey = some "") →
      mkClient cfg = Except.error "API key is required") ∧
    (∀ s, cfg.apiKey = some s → s ≠ "" →
      ∃ c, mkClient cfg = Except.ok c ∧
        (cfg.baseUrl = none → c.baseUrl = "https://api.aisearchapi.io") ∧
        (cfg.timeout = none → c.timeout = 30000)) := by
  constructor
  · intro h
    rcases h with h | h <;> simp [mkClient, strTruthy, h]
  · intro s hs hne
    have hst : strTruthy cfg.apiKey = true := by simp [strTruthy, hs, hne]
    refine ⟨{ apiKey := cfg.apiKey.getD ""
              baseUrl :=
                if strTruthy cfg.baseUrl then cfg.baseUrl.getD ""
                else "https://api.aisearchapi.io"
              timeout :=
                match cfg.timeout with
                | some t => if t != 0 then t else 30000
                | none => 30000 }, ?_, ?_, ?_⟩
    · simp [mkClient, hst]
    · intro hb; simp [hb, strTruthy]
    · intro ht; simp [ht]

/-- C3 witness: an omitted key is rejected, and the key "k" with no other
fields yields the default base URL and the default timeout. -/
theorem mkClient_key_required_and_defaults_witness :
    mkClient { apiKey := none, baseUrl := none, timeout := none }
      = Except.error "API key is required" ∧
    ∃ c, mkClient { apiKey := some "k", baseUrl := none, timeout := none } = Except.ok c ∧
      c.baseUrl = "https://api.aisearchapi.io" ∧ c.timeout = 30000 := by
  constructor
  · exact (mkClient_key_required_and_defaults
      { apiKey := none, baseUrl := none, timeout := none }).1 (Or.inl rfl)
  · obtain ⟨c, hc, hb, ht⟩ := (mkClient_key_required_and_defaults
      { apiKey := some "k", baseUrl := none, timeout := none }).2 "k" rfl (by decide)
    exact ⟨c, hc, hb rfl, ht rfl⟩

/-- C4: error normalization is the terminal step of the failure path: for a
non-2xx response it always yields exactly one AISearchAPIError carrying the
HTTP status as statusCode and the parsed body as response, with the response
field absent when the body did not parse as JSON. -/
theorem handleErrorResponse_terminal (status : Nat) (body : Except String Json)
    (c : Client) (r : DynSearchRequest)
    (hv : validateSearchRequest r = none) (hnok : respOk status = false) :
    (handleErrorResponse status body.toOption).statusCode = some status ∧
    (handleErrorResponse status body.toOption).response = body.toOption ∧
    c.searchRun r (TransportOutcome.response status body) =
      (Except.error (ClientError.apiError (handleErrorResponse status body.toOption)), 1) := by
  refine ⟨rfl, rfl, ?_⟩
  simp [Client.searchRun, hv, makeRequest, hnok]

/-- C4 witness: at status 404 with an empty-object body and a trivially
valid request, search signals the normalized error with that status and
body. -/
theorem handleErrorResponse_terminal_witness :
    (handleErrorResponse 404 (some (Json.obj []))).statusCode = some 404 ∧
    (handleErrorResponse 404 (some (Json.obj []))).response = some (Json.obj []) ∧
    Client.searchRun
      { apiKey := "k", baseUrl := "https://api.aisearchapi.io", timeout := 30000 }
      { prompt := some (Json.str "q"), context := none, response_type := none }
      (TransportOutcome.response 404 (Except.ok (Json.obj []))) =
      (Except.error (ClientError.apiError (handleErrorResponse 404 (some (Json.obj [])))), 1) :=
  handleErrorResponse_terminal 404 (Except.ok (Json.obj [])) _ _ rfl rfl

/-- C5: the timer is cleared on every exit path of makeRequest; when the
timeout signal fires before a response, the call fails with an
AISearchAPIError whose message contains the configured timeout value and
whose statusCode is absent. -/
theorem makeRequest_timeout_and_cleanup (t : Nat) (o : TransportOutcome) :
    (makeRequest t o).2 = true ∧
    (makeRequest t TransportOutcome.timeoutAbort).1 =
      Except.error (ReqError.api
        { message := Json.str ("Request timeout after " ++ toString t ++ "ms")
          statusCode := none
          response := none }) ∧
    ∃ a b, "Request timeout after " ++ toString t ++ "ms" = a ++ toString t ++ b := by
  refine ⟨?_, rfl, "Request timeout after ", "ms", rfl⟩
  cases o <;> rfl

/-- C6 (amended): at status 418 with the nested error body using the wire
field spelling descripiton, the normalized message is "teapot" and the
statusCode is 418. -/
theorem handleErrorResponse_misspelled_teapot :
    (handleErrorResponse 418 (some (Json.obj
      [("error", Json.obj [("descripiton", Json.str "teapot")])]))).message
      = Json.str "teapot" ∧
    (handleErrorResponse 418 (some (Json.obj
      [("error", Json.obj [("descripiton", Json.str "teapot")])]))).statusCode
      = some 418 :=
  ⟨rfl, rfl⟩

/-- C6 counterexample: with the body spelled exactly as the claim writes it,
with the correctly spelled field name description, the code does not match
the nested field and falls back to "HTTP 418" instead of "teapot". -/
theorem handleErrorResponse_description_spelling_cex :
    (handleErrorResponse 418 (some (Json.obj
      [("error", Json.obj [("description", Json.str "teapot")])]))).message
      = Json.str "HTTP 418" ∧
    (handleErrorResponse 418 (some (Json.obj
      [("error", Json.obj [("description", Json.str "teapot")])]))).message
      ≠ Json.str "teapot" := by
  refine ⟨rfl, fun h => ?_⟩
  injection (show Json.str "HTTP 418" = Json.str "teapot" from h) with h2
  exact absurd h2 (by decide)

/-- C7: a transport failure other than timeout surfaces from both search and
balance as an AISearchAPIError with no statusCode whose message preserves
the underlying failure message verbatim after a fixed wrapper text. -/
theorem transport_failure_wrapped (c : Client) (r : DynSearchRequest) (m : String)
    (hv : validateSearchRequest r = none) :
    (∃ e, c.searchRun r (TransportOutcome.failure m) =
        (Except.error (ClientError.apiError e), 1) ∧
      e.statusCode = none ∧
      e.message = Json.str ("Search request failed: " ++ m) ∧
      ∃ p, e.message = Json.str (p ++ m)) ∧
    (∃ e, c.balanceRun (TransportOutcome.failure m) =
        (Except.error (ClientError.apiError e), 1) ∧
      e.statusCode = none ∧
      e.message = Json.str ("Balance request failed: " ++ m) ∧
      ∃ p, e.message = Json.str (p ++ m)) := by
  constructor
  · refine ⟨{ message := Json.str ("Search request failed: " ++ m)
              statusCode := none
              response := none }, ?_, rfl, rfl, "Search request failed: ", rfl⟩
    simp [Client.searchRun, hv, makeRequest]
  · refine ⟨{ message := Json.str ("Balance request failed: " ++ m)
              statusCode := none
              response := none }, ?_, rfl, rfl, "Balance request failed: ", rfl⟩
    simp [Client.balanceRun, makeRequest]

/-- C7 witness: a connection-refused failure on a valid request is wrapped
with no statusCode and the underlying message preserved. -/
theorem transport_failure_wrapped_witness :
    ∃ e, Client.searchRun
      { apiKey := "k", baseUrl := "https://api.aisearchapi.io", timeout := 30000 }
      { prompt := some (Json.str "q"), context := none, response_type := none }
      (TransportOutcome.failure "connection refused") =
        (Except.error (ClientError.apiError e), 1) ∧
      e.statusCode = none ∧
      e.message = Json.str ("Search request failed: " ++ "connection refused") ∧
      ∃ p, e.message = Json.str (p ++ "connection refused") :=
  (transport_failure_wrapped
    { apiKey := "k", baseUrl := "https://api.aisearchapi.io", timeout := 30000 }
    { prompt := some (Json.str "q"), context := none, response_type := none }
    "connection refused" rfl).1

/-- C8: the outbound body always contains the key prompt; it contains the
key context exactly when the caller supplied a context (including an
explicitly supplied empty sequence); and it contains the key response_type
exactly when one was supplied. -/
theorem buildSearchBody_keys (r : SearchRequest)
    (hv : validateSearchRequest r.toDyn = none) :
    (buildSearchBody r.toDyn).hasKey "prompt" = true ∧
    ((buildSearchBody r.toDyn).hasKey "context" = true ↔ r.context.isSome = true) ∧
    ((buildSearchBody r.toDyn).hasKey "response_type" = true ↔
      r.response_type.isSome = true) ∧
    (r.context = some [] → (buildSearchBody r.toDyn).hasKey "context" = true) := by
  obtain ⟨p, rc, rt⟩ := r
  cases rc with
  | none =>
    cases rt with
    | none =>
      simp [buildSearchBody, SearchRequest.toDyn, Json.hasKey, otruthy]
    | some v =>
      cases v <;>
        simp [buildSearchBody, SearchRequest.toDyn, Json.hasKey, otruthy, jtruthy,
          ResponseType.toJson]
  | some ms =>
    cases rt with
    | none =>
      simp [buildSearchBody, SearchRequest.toDyn, Json.hasKey, otruthy, jtruthy]
    | some v =>
      cases v <;>
        simp [buildSearchBody, SearchRequest.toDyn, Json.hasKey, otruthy, jtruthy,
          ResponseType.toJson]

/-- C8 witness: with prompt "q", an explicitly empty context and
response_type text, all three keys are present. -/
theorem buildSearchBody_keys_witness :
    (buildSearchBody (SearchRequest.toDyn
      { prompt := "q", context := some [], response_type := some ResponseType.text })).hasKey
      "prompt" = true ∧
    ((buildSearchBody (SearchRequest.toDyn
      { prompt := "q", context := some [], response_type := some ResponseType.text })).hasKey
      "context" = true ↔ (some ([] : List ChatMessage)).isSome = true) ∧
    ((buildSearchBody (SearchRequest.toDyn
      { prompt := "q", context := some [], response_type := some ResponseType.text })).hasKey
      "response_type" = true ↔ (some ResponseType.text).isSome = true) ∧
    ((some ([] : List ChatMessage)) = some [] →
      (buildSearchBody (SearchRequest.toDyn
        { prompt := "q", context := some [], response_type := some ResponseType.text })).hasKey
        "context" = true) :=
  buildSearchBody_keys
    { prompt := "q", context := some [], response_type := some ResponseType.text } rfl

/-- C9: a 2xx response to a valid request is returned verbatim: the parsed
body the transport delivered is the value search resolves with. -/
theorem searchRun_success_verbatim (c : Client) (r : DynSearchRequest)
    (status : Nat) (body : Json)
    (hv : validateSearchRequest r = none) (h2 : 200 ≤ status) (h3 : status < 300) :
    c.searchRun r (TransportOutcome.response status (Except.ok body)) = (Except.ok body, 1) := by
  have hok : respOk status = true := by simp [respOk, h2, h3]
  simp [Client.searchRun, hv, makeRequest, hok]

/-- C9 witness: the round-trip body of the spec, with sources a then b, is
returned deep-equal with order preserved and total_time untouched. -/
theorem searchRun_success_verbatim_witness :
    Client.searchRun
      { apiKey := "k", baseUrl := "https://api.aisearchapi.io", timeout := 30000 }
      { prompt := some (Json.str "q"), context := none, response_type := none }
      (TransportOutcome.response 200 (Except.ok (Json.obj
        [("answer", Json.str "x"),
         ("sources", Json.arr [Json.str "a", Json.str "b"]),
         ("response_type", Json.str "text"),
         ("total_time", Json.num 12)]))) =
      (Except.ok (Json.obj
        [("answer", Json.str "x"),
         ("sources", Json.arr [Json.str "a", Json.str "b"]),
         ("response_type", Json.str "text"),
         ("total_time", Json.num 12)]), 1) :=
  searchRun_success_verbatim _ _ 200 _ rfl (by decide) (by decide)

/-- C10: a construction with a non-empty key never rejects an explicit zero
timeout or an explicit empty base URL; the defaults are substituted, so a
zero timeout or empty base URL is never the effective configuration. -/
theorem mkClient_falsy_overrides (k : String) (hk : k ≠ "")
    (b : Option String) (t : Option Nat) :
    ∃ c, mkClient { apiKey := some k, baseUrl := b, timeout := t } = Except.ok c ∧
      c.timeout ≠ 0 ∧ c.baseUrl ≠ "" ∧
      (t = some 0 → c.timeout = 30000) ∧
      (b = some "" → c.baseUrl = "https://api.aisearchapi.io") := by
  have hst : strTruthy (some k) = true := by simp [strTruthy, hk]
  refine ⟨{ apiKey := k
            baseUrl :=
              if strTruthy b then b.getD ""
              else "https://api.aisearchapi.io"
            timeout :=
              match t with
              | some t0 => if t0 != 0 then t0 else 30000
              | none => 30000 }, ?_, ?_, ?_, ?_, ?_⟩
  · simp [mkClient, hst]
  · cases t with
    | none =>
      show (30000 : Nat) ≠ 0
      decide
    | some t0 =>
      by_cases h0 : t0 = 0
      · subst h0
        show (30000 : Nat) ≠ 0
        decide
      · simp [h0]
  · cases b with
    | none =>
      show "https://api.aisearchapi.io" ≠ ""
      decide
    | some s =>
      by_cases hsb : s = ""
      · subst hsb
        show "https://api.aisearchapi.io" ≠ ""
        decide
      · simp [strTruthy, hsb]
  · intro h0
    subst h0
    rfl
  · intro hb
    subst hb
    rfl

/-- C10 witness: key "key" with an explicitly empty base URL and zero
timeout constructs successfully with both defaults in effect. -/
theorem mkClient_falsy_overrides_witness :
    ∃ c, mkClient { apiKey := some "key", baseUrl := some "", timeout := some 0 }
        = Except.ok c ∧
      c.timeout ≠ 0 ∧ c.baseUrl ≠ "" ∧
      c.timeout = 30000 ∧ c.baseUrl = "https://api.aisearchapi.io" := by
  obtain ⟨c, hc, h1, h2, h3, h4⟩ := mkClient_falsy_overrides "key" (by decide) (some "") (some 0)
  exact ⟨c, hc, h1, h2, h3 rfl, h4 rfl⟩

end AISearchAPI
